import Mathlib

/-!
Shallow embedding of `bindings/rust/wasmedge-sys/src/instance/module.rs`:
the `Instance` export directory, the host module builders (`ImportModule`,
`WasiModule`, `WasmEdgeProcessModule`), the `ImportObject` tagged union, and
their create / add / get / drop behaviour.

The WasmEdge C API (the `ffi::WasmEdge_*` entry points) is an external
service; it is modelled by the `FFIBackend` structure of uninterpreted
response functions, and each Rust wrapper becomes a Lean function
parameterised by a backend. Raw pointers are modelled as `Nat` with `0`
standing for the null pointer; C strings keep their string data.
-/

namespace SSVM

/-- Raw pointers (`*mut WasmEdge_ModuleInstanceContext`, entity contexts,
`*const c_char`) are modelled as natural numbers; `0` is the null pointer. -/
abbrev Handle := Nat

/-- `std::ptr::null_mut()` / the null sentinel returned by the C API. -/
def nullHandle : Handle := 0

/-- `utils::string_to_c_char` (defined outside this file) converts a Rust
string into a C string carrying the same character data; modelled as the
identity on that data. -/
def string_to_c_char (s : String) : String := s

/-- `InnerInstance(*mut ffi::WasmEdge_ModuleInstanceContext)`. -/
structure InnerInstance where
  ptr : Handle
  deriving DecidableEq

/-- `InnerFunc(*mut ffi::WasmEdge_FunctionInstanceContext)`. -/
structure InnerFunc where
  ptr : Handle
  deriving DecidableEq

/-- `InnerTable(*mut ffi::WasmEdge_TableInstanceContext)`. -/
structure InnerTable where
  ptr : Handle
  deriving DecidableEq

/-- `InnerMemory(*mut ffi::WasmEdge_MemoryInstanceContext)`. -/
structure InnerMemory where
  ptr : Handle
  deriving DecidableEq

/-- `InnerGlobal(*mut ffi::WasmEdge_GlobalInstanceContext)`. -/
structure InnerGlobal where
  ptr : Handle
  deriving DecidableEq

/-- `crate::Function` (function.rs is outside this file): the two fields this
file reads and writes, `inner` and `registered`. -/
structure Function where
  inner : InnerFunc
  registered : Bool
  deriving DecidableEq

/-- `crate::Table`: the two fields this file reads and writes. -/
structure Table where
  inner : InnerTable
  registered : Bool
  deriving DecidableEq

/-- `crate::Memory`: the two fields this file reads and writes. -/
structure Memory where
  inner : InnerMemory
  registered : Bool
  deriving DecidableEq

/-- `crate::Global`: the two fields this file reads and writes. -/
structure Global where
  inner : InnerGlobal
  registered : Bool
  deriving DecidableEq

/-- `error::InstanceError` (error.rs is outside this file): the variants this
file constructs. -/
inductive InstanceError where
  | CreateImportModule
  | NotFoundFunc (name : String)
  | NotFoundTable (name : String)
  | NotFoundMem (name : String)
  | NotFoundGlobal (name : String)
  deriving DecidableEq

/-- `error::WasmEdgeError`: the variants this file constructs. -/
inductive WasmEdgeError where
  | Instance (e : InstanceError)
  | ImportObjCreate
  deriving DecidableEq

/-- `WasmEdgeResult<T> = Result<T, WasmEdgeError>`. -/
abbrev WasmEdgeResult (α : Type) := Except WasmEdgeError α

/-- The marshalled argument block passed to `WasmEdge_ModuleInstanceCreateWASI`
and `WasmEdge_ModuleInstanceInitWASI`: three (array, length) pairs, exactly the
six arguments the source passes after the optional handle. -/
structure WasiParams where
  args : List String
  args_len : Nat
  envs : List String
  envs_len : Nat
  preopens : List String
  preopens_len : Nat
  deriving DecidableEq

/-- The argument block passed to `WasmEdge_ModuleInstanceCreateWasmEdgeProcess`
and `WasmEdge_ModuleInstanceInitWasmEdgeProcess`. Note it carries no
module-handle field: the C call signatures used in the source take only the
command array, its length and the `allowed` flag. -/
structure ProcessParams where
  cmds : List String
  cmds_len : Nat
  allowed : Bool
  deriving DecidableEq

/-- One `WasmEdge_ModuleInstanceAdd{Function,Table,Memory,Global}` call: the
module handle, the export name and the entity handle. -/
structure AddEntityCall where
  module_ptr : Handle
  name : String
  entity_ptr : Handle
  deriving DecidableEq

/-- One `WasmEdge_ModuleInstanceInitWASI` call: the module handle plus the
marshalled parameter block. -/
structure InitWasiCall where
  module_ptr : Handle
  params : WasiParams
  deriving DecidableEq

/-- The WasmEdge C API as seen from this file: one uninterpreted response
function per `ffi::` entry point the wrappers call. The `...Length` fields are
the export counts; the `List{Function,Table,Memory,Global}` fields give the
string the C side writes into buffer slot `i` when called with a handle and a
buffer length (the wrapper then keeps exactly buffer-length entries, mirroring
`set_len`). -/
structure FFIBackend where
  WasmEdge_ModuleInstanceCreate : String → Handle
  WasmEdge_ModuleInstanceGetModuleName : Handle → String
  WasmEdge_ModuleInstanceFindFunction : Handle → String → Handle
  WasmEdge_ModuleInstanceFindTable : Handle → String → Handle
  WasmEdge_ModuleInstanceFindMemory : Handle → String → Handle
  WasmEdge_ModuleInstanceFindGlobal : Handle → String → Handle
  WasmEdge_ModuleInstanceListFunctionLength : Handle → Nat
  WasmEdge_ModuleInstanceListTableLength : Handle → Nat
  WasmEdge_ModuleInstanceListMemoryLength : Handle → Nat
  WasmEdge_ModuleInstanceListGlobalLength : Handle → Nat
  WasmEdge_ModuleInstanceListFunction : Handle → Nat → Nat → String
  WasmEdge_ModuleInstanceListTable : Handle → Nat → Nat → String
  WasmEdge_ModuleInstanceListMemory : Handle → Nat → Nat → String
  WasmEdge_ModuleInstanceListGlobal : Handle → Nat → Nat → String
  WasmEdge_ModuleInstanceCreateWASI : WasiParams → Handle
  WasmEdge_ModuleInstanceCreateWasmEdgeProcess : ProcessParams → Handle
  WasmEdge_ModuleInstanceWASIGetExitCode : Handle → Nat

/-- `Instance` with fields `inner: InnerInstance` and `registered: bool`. -/
structure Instance where
  inner : InnerInstance
  registered : Bool
  deriving DecidableEq

/-- `impl Drop for Instance`: the `WasmEdge_ModuleInstanceDelete` calls the
destructor issues (delete iff not registered and handle non-null). -/
def Instance.dropCalls (i : Instance) : List Handle :=
  if !i.registered && i.inner.ptr != nullHandle then [i.inner.ptr] else []

/-- `Instance::name`: the backing module name, `None` when it is empty. -/
def Instance.name (i : Instance) (b : FFIBackend) : Option String :=
  let name := b.WasmEdge_ModuleInstanceGetModuleName i.inner.ptr
  if name.isEmpty then none else some name

/-- `Instance::get_func`. -/
def Instance.get_func (i : Instance) (b : FFIBackend) (name : String) :
    WasmEdgeResult Function :=
  let func_ctx := b.WasmEdge_ModuleInstanceFindFunction i.inner.ptr name
  if func_ctx = nullHandle then
    Except.error (WasmEdgeError.Instance (InstanceError.NotFoundFunc name))
  else
    Except.ok { inner := ⟨func_ctx⟩, registered := true }

/-- `Instance::get_table`. -/
def Instance.get_table (i : Instance) (b : FFIBackend) (name : String) :
    WasmEdgeResult Table :=
  let ctx := b.WasmEdge_ModuleInstanceFindTable i.inner.ptr name
  if ctx = nullHandle then
    Except.error (WasmEdgeError.Instance (InstanceError.NotFoundTable name))
  else
    Except.ok { inner := ⟨ctx⟩, registered := true }

/-- `Instance::get_memory`. -/
def Instance.get_memory (i : Instance) (b : FFIBackend) (name : String) :
    WasmEdgeResult Memory :=
  let ctx := b.WasmEdge_ModuleInstanceFindMemory i.inner.ptr name
  if ctx = nullHandle then
    Except.error (WasmEdgeError.Instance (InstanceError.NotFoundMem name))
  else
    Except.ok { inner := ⟨ctx⟩, registered := true }

/-- `Instance::get_global`. -/
def Instance.get_global (i : Instance) (b : FFIBackend) (name : String) :
    WasmEdgeResult Global :=
  let ctx := b.WasmEdge_ModuleInstanceFindGlobal i.inner.ptr name
  if ctx = nullHandle then
    Except.error (WasmEdgeError.Instance (InstanceError.NotFoundGlobal name))
  else
    Except.ok { inner := ⟨ctx⟩, registered := true }

/-- `Instance::func_len`. -/
def Instance.func_len (i : Instance) (b : FFIBackend) : Nat :=
  b.WasmEdge_ModuleInstanceListFunctionLength i.inner.ptr

/-- `Instance::func_names`: when the count is positive, allocates a buffer of
that length, lets the C side fill it and keeps exactly that many entries
(`set_len`); otherwise `None`. -/
def Instance.func_names (i : Instance) (b : FFIBackend) : Option (List String) :=
  let len_func_names := i.func_len b
  if len_func_names > 0 then
    some ((List.range len_func_names).map
      (b.WasmEdge_ModuleInstanceListFunction i.inner.ptr len_func_names))
  else
    none

/-- `Instance::table_len`. -/
def Instance.table_len (i : Instance) (b : FFIBackend) : Nat :=
  b.WasmEdge_ModuleInstanceListTableLength i.inner.ptr

/-- `Instance::table_names`. -/
def Instance.table_names (i : Instance) (b : FFIBackend) : Option (List String) :=
  let len_table_names := i.table_len b
  if len_table_names > 0 then
    some ((List.range len_table_names).map
      (b.WasmEdge_ModuleInstanceListTable i.inner.ptr len_table_names))
  else
    none

/-- `Instance::mem_len`. -/
def Instance.mem_len (i : Instance) (b : FFIBackend) : Nat :=
  b.WasmEdge_ModuleInstanceListMemoryLength i.inner.ptr

/-- `Instance::mem_names`. -/
def Instance.mem_names (i : Instance) (b : FFIBackend) : Option (List String) :=
  let len_mem_names := i.mem_len b
  if len_mem_names > 0 then
    some ((List.range len_mem_names).map
      (b.WasmEdge_ModuleInstanceListMemory i.inner.ptr len_mem_names))
  else
    none

/-- `Instance::global_len`. -/
def Instance.global_len (i : Instance) (b : FFIBackend) : Nat :=
  b.WasmEdge_ModuleInstanceListGlobalLength i.inner.ptr

/-- `Instance::global_names`. -/
def Instance.global_names (i : Instance) (b : FFIBackend) : Option (List String) :=
  let len_global_names := i.global_len b
  if len_global_names > 0 then
    some ((List.range len_global_names).map
      (b.WasmEdge_ModuleInstanceListGlobal i.inner.ptr len_global_names))
  else
    none

/-- `ImportModule` with fields `inner`, `registered` and `name`. -/
structure ImportModule where
  inner : InnerInstance
  registered : Bool
  name : String
  deriving DecidableEq

/-- `impl Drop for ImportModule`: delete iff not registered and non-null. -/
def ImportModule.dropCalls (m : ImportModule) : List Handle :=
  if !m.registered && m.inner.ptr != nullHandle then [m.inner.ptr] else []

/-- `ImportModule::create`: null allocation becomes the typed
`InstanceError::CreateImportModule`; otherwise an unregistered wrapper holding
the handle and the given name. -/
def ImportModule.create (b : FFIBackend) (name : String) :
    WasmEdgeResult ImportModule :=
  let ctx := b.WasmEdge_ModuleInstanceCreate name
  if ctx = nullHandle then
    Except.error (WasmEdgeError.Instance InstanceError.CreateImportModule)
  else
    Except.ok { inner := ⟨ctx⟩, registered := false, name := name }

/-- `ImportModule::add_func` (`impl ImportInstance for ImportModule`):
emits one add call carrying the module handle, the name and the entity handle,
then sets the entity wrapper's handle to null. The returned triple is the
module wrapper (its own fields untouched), the updated entity wrapper, and the
emitted call. -/
def ImportModule.add_func (m : ImportModule) (name : String) (func : Function) :
    ImportModule × Function × AddEntityCall :=
  (m, { func with inner := ⟨nullHandle⟩ },
    { module_ptr := m.inner.ptr, name := name, entity_ptr := func.inner.ptr })

/-- `ImportModule::add_table`. -/
def ImportModule.add_table (m : ImportModule) (name : String) (table : Table) :
    ImportModule × Table × AddEntityCall :=
  (m, { table with inner := ⟨nullHandle⟩ },
    { module_ptr := m.inner.ptr, name := name, entity_ptr := table.inner.ptr })

/-- `ImportModule::add_memory`. -/
def ImportModule.add_memory (m : ImportModule) (name : String) (memory : Memory) :
    ImportModule × Memory × AddEntityCall :=
  (m, { memory with inner := ⟨nullHandle⟩ },
    { module_ptr := m.inner.ptr, name := name, entity_ptr := memory.inner.ptr })

/-- `ImportModule::add_global`. -/
def ImportModule.add_global (m : ImportModule) (name : String) (global : Global) :
    ImportModule × Global × AddEntityCall :=
  (m, { global with inner := ⟨nullHandle⟩ },
    { module_ptr := m.inner.ptr, name := name, entity_ptr := global.inner.ptr })

/-- The argument marshalling shared by `WasiModule::create` and
`WasiModule::init_wasi`: `None` becomes `vec![]`, `Some(v)` maps
`string_to_c_char` over `v`, and each length is read off the marshalled
vector. -/
def wasiParams (args envs preopens : Option (List String)) : WasiParams :=
  let args' := match args with
    | some args => args.map string_to_c_char
    | none => []
  let envs' := match envs with
    | some envs => envs.map string_to_c_char
    | none => []
  let preopens' := match preopens with
    | some preopens => preopens.map string_to_c_char
    | none => []
  { args := args', args_len := args'.length,
    envs := envs', envs_len := envs'.length,
    preopens := preopens', preopens_len := preopens'.length }

/-- `WasiModule` with fields `inner` and `registered`. -/
structure WasiModule where
  inner : InnerInstance
  registered : Bool
  deriving DecidableEq

/-- `impl Drop for WasiModule`: delete iff not registered and non-null. -/
def WasiModule.dropCalls (m : WasiModule) : List Handle :=
  if !m.registered && m.inner.ptr != nullHandle then [m.inner.ptr] else []

/-- `WasiModule::create`: marshals the three optional lists, calls
`WasmEdge_ModuleInstanceCreateWASI`; null becomes `WasmEdgeError::ImportObjCreate`,
otherwise an unregistered wrapper holding the handle. -/
def WasiModule.create (b : FFIBackend) (args envs preopens : Option (List String)) :
    WasmEdgeResult WasiModule :=
  let ctx := b.WasmEdge_ModuleInstanceCreateWASI (wasiParams args envs preopens)
  if ctx = nullHandle then
    Except.error WasmEdgeError.ImportObjCreate
  else
    Except.ok { inner := ⟨ctx⟩, registered := false }

/-- `WasiModule::name`: the fixed identity name. -/
def WasiModule.name (_ : WasiModule) : String := "wasi_snapshot_preview1"

/-- `WasiModule::init_wasi`: passes `self.inner.0` and the marshalled
parameters to `WasmEdge_ModuleInstanceInitWASI`. The wrapper's own fields are
untouched; the second component is the emitted call. -/
def WasiModule.init_wasi (w : WasiModule) (args envs preopens : Option (List String)) :
    WasiModule × InitWasiCall :=
  (w, { module_ptr := w.inner.ptr, params := wasiParams args envs preopens })

/-- `WasiModule::exit_code`: delegates to
`WasmEdge_ModuleInstanceWASIGetExitCode` on the wrapper's handle. -/
def WasiModule.exit_code (w : WasiModule) (b : FFIBackend) : Nat :=
  b.WasmEdge_ModuleInstanceWASIGetExitCode w.inner.ptr

/-- `WasiModule::add_func` (`impl ImportInstance for WasiModule`). -/
def WasiModule.add_func (m : WasiModule) (name : String) (func : Function) :
    WasiModule × Function × AddEntityCall :=
  (m, { func with inner := ⟨nullHandle⟩ },
    { module_ptr := m.inner.ptr, name := name, entity_ptr := func.inner.ptr })

/-- `WasiModule::add_table`. -/
def WasiModule.add_table (m : WasiModule) (name : String) (table : Table) :
    WasiModule × Table × AddEntityCall :=
  (m, { table with inner := ⟨nullHandle⟩ },
    { module_ptr := m.inner.ptr, name := name, entity_ptr := table.inner.ptr })

/-- `WasiModule::add_memory`. -/
def WasiModule.add_memory (m : WasiModule) (name : String) (memory : Memory) :
    WasiModule × Memory × AddEntityCall :=
  (m, { memory with inner := ⟨nullHandle⟩ },
    { module_ptr := m.inner.ptr, name := name, entity_ptr := memory.inner.ptr })

/-- `WasiModule::add_global`. -/
def WasiModule.add_global (m : WasiModule) (name : String) (global : Global) :
    WasiModule × Global × AddEntityCall :=
  (m, { global with inner := ⟨nullHandle⟩ },
    { module_ptr := m.inner.ptr, name := name, entity_ptr := global.inner.ptr })

/-- The argument marshalling shared by `WasmEdgeProcessModule::create` and
`init_wasmedge_process`: `None` becomes `vec![]`, `Some(v)` maps
`string_to_c_char` over `v`. -/
def processParams (allowed_cmds : Option (List String)) (allowed : Bool) :
    ProcessParams :=
  let cmds := match allowed_cmds with
    | some cmds => cmds.map string_to_c_char
    | none => []
  { cmds := cmds, cmds_len := cmds.length, allowed := allowed }

/-- `WasmEdgeProcessModule` with fields `inner` and `registered`. -/
structure WasmEdgeProcessModule where
  inner : InnerInstance
  registered : Bool
  deriving DecidableEq

/-- `impl Drop for WasmEdgeProcessModule`: delete iff not registered and
non-null. -/
def WasmEdgeProcessModule.dropCalls (m : WasmEdgeProcessModule) : List Handle :=
  if !m.registered && m.inner.ptr != nullHandle then [m.inner.ptr] else []

/-- `WasmEdgeProcessModule::create`: marshals the optional command list, calls
`WasmEdge_ModuleInstanceCreateWasmEdgeProcess`; null becomes
`WasmEdgeError::ImportObjCreate`. -/
def WasmEdgeProcessModule.create (b : FFIBackend)
    (allowed_cmds : Option (List String)) (allowed : Bool) :
    WasmEdgeResult WasmEdgeProcessModule :=
  let ctx := b.WasmEdge_ModuleInstanceCreateWasmEdgeProcess
    (processParams allowed_cmds allowed)
  if ctx = nullHandle then
    Except.error WasmEdgeError.ImportObjCreate
  else
    Except.ok { inner := ⟨ctx⟩, registered := false }

/-- `WasmEdgeProcessModule::name`: the fixed identity name. -/
def WasmEdgeProcessModule.name (_ : WasmEdgeProcessModule) : String :=
  "wasmedge_process"

/-- `WasmEdgeProcessModule::init_wasmedge_process`: the source calls
`WasmEdge_ModuleInstanceInitWasmEdgeProcess(cmds.as_ptr(), cmds_len, allowed)`
without passing `self.inner.0`, so the emitted call is a `ProcessParams` block
carrying no module handle, and the wrapper is untouched. -/
def WasmEdgeProcessModule.init_wasmedge_process (m : WasmEdgeProcessModule)
    (allowed_cmds : Option (List String)) (allowed : Bool) :
    WasmEdgeProcessModule × ProcessParams :=
  (m, processParams allowed_cmds allowed)

/-- `WasmEdgeProcessModule::add_func`
(`impl ImportInstance for WasmEdgeProcessModule`). -/
def WasmEdgeProcessModule.add_func (m : WasmEdgeProcessModule) (name : String)
    (func : Function) : WasmEdgeProcessModule × Function × AddEntityCall :=
  (m, { func with inner := ⟨nullHandle⟩ },
    { module_ptr := m.inner.ptr, name := name, entity_ptr := func.inner.ptr })

/-- `WasmEdgeProcessModule::add_table`. -/
def WasmEdgeProcessModule.add_table (m : WasmEdgeProcessModule) (name : String)
    (table : Table) : WasmEdgeProcessModule × Table × AddEntityCall :=
  (m, { table with inner := ⟨nullHandle⟩ },
    { module_ptr := m.inner.ptr, name := name, entity_ptr := table.inner.ptr })

/-- `WasmEdgeProcessModule::add_memory`. -/
def WasmEdgeProcessModule.add_memory (m : WasmEdgeProcessModule) (name : String)
    (memory : Memory) : WasmEdgeProcessModule × Memory × AddEntityCall :=
  (m, { memory with inner := ⟨nullHandle⟩ },
    { module_ptr := m.inner.ptr, name := name, entity_ptr := memory.inner.ptr })

/-- `WasmEdgeProcessModule::add_global`. -/
def WasmEdgeProcessModule.add_global (m : WasmEdgeProcessModule) (name : String)
    (global : Global) : WasmEdgeProcessModule × Global × AddEntityCall :=
  (m, { global with inner := ⟨nullHandle⟩ },
    { module_ptr := m.inner.ptr, name := name, entity_ptr := global.inner.ptr })

/-- Modelled from the spec: the `Drop` impl of `Function` lives in
function.rs, which is outside this file; the spec fixes every entity
destructor as "release the handle iff tagged Owned (not registered) and the
handle is non-null". Returns the destroy calls the destructor issues. -/
def Function.dropCalls (f : Function) : List Handle :=
  if !f.registered && f.inner.ptr != nullHandle then [f.inner.ptr] else []

/-- Modelled from the spec: the `Drop` impl of `Table` (table.rs), same
release-iff-Owned-and-non-null discipline. -/
def Table.dropCalls (t : Table) : List Handle :=
  if !t.registered && t.inner.ptr != nullHandle then [t.inner.ptr] else []

/-- Modelled from the spec: the `Drop` impl of `Memory` (memory.rs), same
release-iff-Owned-and-non-null discipline. -/
def Memory.dropCalls (m : Memory) : List Handle :=
  if !m.registered && m.inner.ptr != nullHandle then [m.inner.ptr] else []

/-- Modelled from the spec: the `Drop` impl of `Global` (global.rs), same
release-iff-Owned-and-non-null discipline. -/
def Global.dropCalls (g : Global) : List Handle :=
  if !g.registered && g.inner.ptr != nullHandle then [g.inner.ptr] else []

/-- `ImportObject`: the closed tagged union over the three host module
kinds. -/
inductive ImportObject where
  | Import (m : ImportModule)
  | Wasi (m : WasiModule)
  | WasmEdgeProcess (m : WasmEdgeProcessModule)

/-- `ImportObject::name`: dispatches to the active variant's `name`. -/
def ImportObject.name : ImportObject → String
  | ImportObject.Import m => m.name
  | ImportObject.Wasi m => m.name
  | ImportObject.WasmEdgeProcess m => m.name

/-- A concrete owned function wrapper: handle 7, not registered. -/
def testFunc : Function := { inner := ⟨7⟩, registered := false }

/-- A concrete import module wrapper: handle 5, not registered. -/
def testImport : ImportModule := { inner := ⟨5⟩, registered := false, name := "m" }

/-- A concrete backend: every allocation returns handle 1, every lookup handle
2, every count is 1, every listed name is "e", the WASI exit code is 0. -/
def testBackend : FFIBackend where
  WasmEdge_ModuleInstanceCreate := fun _ => 1
  WasmEdge_ModuleInstanceGetModuleName := fun _ => "m"
  WasmEdge_ModuleInstanceFindFunction := fun _ _ => 2
  WasmEdge_ModuleInstanceFindTable := fun _ _ => 2
  WasmEdge_ModuleInstanceFindMemory := fun _ _ => 2
  WasmEdge_ModuleInstanceFindGlobal := fun _ _ => 2
  WasmEdge_ModuleInstanceListFunctionLength := fun _ => 1
  WasmEdge_ModuleInstanceListTableLength := fun _ => 1
  WasmEdge_ModuleInstanceListMemoryLength := fun _ => 1
  WasmEdge_ModuleInstanceListGlobalLength := fun _ => 1
  WasmEdge_ModuleInstanceListFunction := fun _ _ _ => "e"
  WasmEdge_ModuleInstanceListTable := fun _ _ _ => "e"
  WasmEdge_ModuleInstanceListMemory := fun _ _ _ => "e"
  WasmEdge_ModuleInstanceListGlobal := fun _ _ _ => "e"
  WasmEdge_ModuleInstanceCreateWASI := fun _ => 1
  WasmEdge_ModuleInstanceCreateWasmEdgeProcess := fun _ => 1
  WasmEdge_ModuleInstanceWASIGetExitCode := fun _ => 0

/-- The shared shape of every destructor in this layer: at most one delete
call, and a delete happens exactly when the wrapper is not registered and its
handle is non-null. -/
theorem dropCalls_if_spec (r : Bool) (p : Handle) :
    (if !r && p != nullHandle then [p] else []).length ≤ 1
    ∧ ((if !r && p != nullHandle then [p] else []) ≠ []
        ↔ (r = false ∧ p ≠ nullHandle)) := by
  cases r <;> by_cases hp : p = nullHandle <;> simp [hp]

/-- Modelled from the spec: the backing WasmEdge runtime (outside this file)
initializes the WASI exit-code field of a freshly created WASI module instance
to the sentinel 0 before any entry function has run. -/
def wasiInitSentinelZero (b : FFIBackend) : Prop :=
  ∀ args envs preopens : Option (List String),
    b.WasmEdge_ModuleInstanceWASIGetExitCode
      (b.WasmEdge_ModuleInstanceCreateWASI (wasiParams args envs preopens)) = 0

/-- C1 counterexample: adding a concrete owned function (handle 7, registered
false) to a concrete import module nulls the handle but does NOT set the
registered flag to true, so the claimed conjunction fails. -/
theorem c1_counterexample :
    ¬ ((testImport.add_func "f" testFunc).2.1.inner.ptr = nullHandle
        ∧ (testImport.add_func "f" testFunc).2.1.registered = true) := by
  decide

/-- C1 (amended): for every host module and every entity kind, after
add_func/add_table/add_memory/add_global the entity wrapper's handle equals the
null sentinel, and its registered flag is left unchanged (it is not set to
true). -/
theorem c1_amended (im : ImportModule) (wm : WasiModule)
    (pm : WasmEdgeProcessModule) (n : String) (f : Function) (t : Table)
    (mem : Memory) (g : Global) :
    ((im.add_func n f).2.1.inner.ptr = nullHandle
      ∧ (im.add_func n f).2.1.registered = f.registered)
    ∧ ((im.add_table n t).2.1.inner.ptr = nullHandle
      ∧ (im.add_table n t).2.1.registered = t.registered)
    ∧ ((im.add_memory n mem).2.1.inner.ptr = nullHandle
      ∧ (im.add_memory n mem).2.1.registered = mem.registered)
    ∧ ((im.add_global n g).2.1.inner.ptr = nullHandle
      ∧ (im.add_global n g).2.1.registered = g.registered)
    ∧ ((wm.add_func n f).2.1.inner.ptr = nullHandle
      ∧ (wm.add_func n f).2.1.registered = f.registered)
    ∧ ((wm.add_table n t).2.1.inner.ptr = nullHandle
      ∧ (wm.add_table n t).2.1.registered = t.registered)
    ∧ ((wm.add_memory n mem).2.1.inner.ptr = nullHandle
      ∧ (wm.add_memory n mem).2.1.registered = mem.registered)
    ∧ ((wm.add_global n g).2.1.inner.ptr = nullHandle
      ∧ (wm.add_global n g).2.1.registered = g.registered)
    ∧ ((pm.add_func n f).2.1.inner.ptr = nullHandle
      ∧ (pm.add_func n f).2.1.registered = f.registered)
    ∧ ((pm.add_table n t).2.1.inner.ptr = nullHandle
      ∧ (pm.add_table n t).2.1.registered = t.registered)
    ∧ ((pm.add_memory n mem).2.1.inner.ptr = nullHandle
      ∧ (pm.add_memory n mem).2.1.registered = mem.registered)
    ∧ ((pm.add_global n g).2.1.inner.ptr = nullHandle
      ∧ (pm.add_global n g).2.1.registered = g.registered) :=
  ⟨⟨rfl, rfl⟩, ⟨rfl, rfl⟩, ⟨rfl, rfl⟩, ⟨rfl, rfl⟩, ⟨rfl, rfl⟩, ⟨rfl, rfl⟩,
    ⟨rfl, rfl⟩, ⟨rfl, rfl⟩, ⟨rfl, rfl⟩, ⟨rfl, rfl⟩, ⟨rfl, rfl⟩, ⟨rfl, rfl⟩⟩

/-- C2: every wrapper's destructor issues at most one delete, and issues one
exactly when the wrapper is not registered and its handle is non-null; and for
every entity handed to any host module by add_*, destroying the original
entity wrapper afterwards issues no delete at all. -/
theorem c2_drop_release_iff_owned (i : Instance) (im : ImportModule)
    (wm : WasiModule) (pm : WasmEdgeProcessModule) (f : Function) (t : Table)
    (mem : Memory) (g : Global) (n : String) :
    (i.dropCalls.length ≤ 1
      ∧ (i.dropCalls ≠ [] ↔ (i.registered = false ∧ i.inner.ptr ≠ nullHandle)))
    ∧ (im.dropCalls.length ≤ 1
      ∧ (im.dropCalls ≠ [] ↔ (im.registered = false ∧ im.inner.ptr ≠ nullHandle)))
    ∧ (wm.dropCalls.length ≤ 1
      ∧ (wm.dropCalls ≠ [] ↔ (wm.registered = false ∧ wm.inner.ptr ≠ nullHandle)))
    ∧ (pm.dropCalls.length ≤ 1
      ∧ (pm.dropCalls ≠ [] ↔ (pm.registered = false ∧ pm.inner.ptr ≠ nullHandle)))
    ∧ (f.dropCalls.length ≤ 1
      ∧ (f.dropCalls ≠ [] ↔ (f.registered = false ∧ f.inner.ptr ≠ nullHandle)))
    ∧ (t.dropCalls.length ≤ 1
      ∧ (t.dropCalls ≠ [] ↔ (t.registered = false ∧ t.inner.ptr ≠ nullHandle)))
    ∧ (mem.dropCalls.length ≤ 1
      ∧ (mem.dropCalls ≠ [] ↔ (mem.registered = false ∧ mem.inner.ptr ≠ nullHandle)))
    ∧ (g.dropCalls.length ≤ 1
      ∧ (g.dropCalls ≠ [] ↔ (g.registered = false ∧ g.inner.ptr ≠ nullHandle)))
    ∧ (im.add_func n f).2.1.dropCalls = []
    ∧ (im.add_table n t).2.1.dropCalls = []
    ∧ (im.add_memory n mem).2.1.dropCalls = []
    ∧ (im.add_global n g).2.1.dropCalls = []
    ∧ (wm.add_func n f).2.1.dropCalls = []
    ∧ (wm.add_table n t).2.1.dropCalls = []
    ∧ (wm.add_memory n mem).2.1.dropCalls = []
    ∧ (wm.add_global n g).2.1.dropCalls = []
    ∧ (pm.add_func n f).2.1.dropCalls = []
    ∧ (pm.add_table n t).2.1.dropCalls = []
    ∧ (pm.add_memory n mem).2.1.dropCalls = []
    ∧ (pm.add_global n g).2.1.dropCalls = [] := by
  refine ⟨dropCalls_if_spec _ _, dropCalls_if_spec _ _, dropCalls_if_spec _ _,
    dropCalls_if_spec _ _, dropCalls_if_spec _ _, dropCalls_if_spec _ _,
    dropCalls_if_spec _ _, dropCalls_if_spec _ _,
    ?_, ?_, ?_, ?_, ?_, ?_, ?_, ?_, ?_, ?_, ?_, ?_⟩ <;>
    simp [ImportModule.add_func, ImportModule.add_table, ImportModule.add_memory,
      ImportModule.add_global, WasiModule.add_func, WasiModule.add_table,
      WasiModule.add_memory, WasiModule.add_global, WasmEdgeProcessModule.add_func,
      WasmEdgeProcessModule.add_table, WasmEdgeProcessModule.add_memory,
      WasmEdgeProcessModule.add_global, Function.dropCalls, Table.dropCalls,
      Memory.dropCalls, Global.dropCalls, nullHandle]

/-- C3: each of the four lookups fails with its own kind-specific not-found
error carrying the looked-up name exactly when the backing find returns the
null sentinel (and succeeds otherwise), every successful lookup returns a
wrapper whose registered flag is true, and the four error variants are
pairwise distinct. -/
theorem c3_get_kind_specific_not_found (i : Instance) (b : FFIBackend)
    (n : String) :
    ((i.get_func b n
        = Except.error (WasmEdgeError.Instance (InstanceError.NotFoundFunc n))
        ↔ b.WasmEdge_ModuleInstanceFindFunction i.inner.ptr n = nullHandle)
      ∧ ((i.get_func b n).toOption = none
        ↔ b.WasmEdge_ModuleInstanceFindFunction i.inner.ptr n = nullHandle)
      ∧ ((i.get_func b n).toOption.all fun f => f.registered) = true)
    ∧ ((i.get_table b n
        = Except.error (WasmEdgeError.Instance (InstanceError.NotFoundTable n))
        ↔ b.WasmEdge_ModuleInstanceFindTable i.inner.ptr n = nullHandle)
      ∧ ((i.get_table b n).toOption = none
        ↔ b.WasmEdge_ModuleInstanceFindTable i.inner.ptr n = nullHandle)
      ∧ ((i.get_table b n).toOption.all fun t => t.registered) = true)
    ∧ ((i.get_memory b n
        = Except.error (WasmEdgeError.Instance (InstanceError.NotFoundMem n))
        ↔ b.WasmEdge_ModuleInstanceFindMemory i.inner.ptr n = nullHandle)
      ∧ ((i.get_memory b n).toOption = none
        ↔ b.WasmEdge_ModuleInstanceFindMemory i.inner.ptr n = nullHandle)
      ∧ ((i.get_memory b n).toOption.all fun m => m.registered) = true)
    ∧ ((i.get_global b n
        = Except.error (WasmEdgeError.Instance (InstanceError.NotFoundGlobal n))
        ↔ b.WasmEdge_ModuleInstanceFindGlobal i.inner.ptr n = nullHandle)
      ∧ ((i.get_global b n).toOption = none
        ↔ b.WasmEdge_ModuleInstanceFindGlobal i.inner.ptr n = nullHandle)
      ∧ ((i.get_global b n).toOption.all fun g => g.registered) = true)
    ∧ (InstanceError.NotFoundFunc n ≠ InstanceError.NotFoundTable n
      ∧ InstanceError.NotFoundFunc n ≠ InstanceError.NotFoundMem n
      ∧ InstanceError.NotFoundFunc n ≠ InstanceError.NotFoundGlobal n
      ∧ InstanceError.NotFoundTable n ≠ InstanceError.NotFoundMem n
      ∧ InstanceError.NotFoundTable n ≠ InstanceError.NotFoundGlobal n
      ∧ InstanceError.NotFoundMem n ≠ InstanceError.NotFoundGlobal n) := by
  refine ⟨?_, ?_, ?_, ?_, by simp⟩
  · by_cases h : b.WasmEdge_ModuleInstanceFindFunction i.inner.ptr n = nullHandle <;>
      simp [Instance.get_func, h, Except.toOption, Option.all]
  · by_cases h : b.WasmEdge_ModuleInstanceFindTable i.inner.ptr n = nullHandle <;>
      simp [Instance.get_table, h, Except.toOption, Option.all]
  · by_cases h : b.WasmEdge_ModuleInstanceFindMemory i.inner.ptr n = nullHandle <;>
      simp [Instance.get_memory, h, Except.toOption, Option.all]
  · by_cases h : b.WasmEdge_ModuleInstanceFindGlobal i.inner.ptr n = nullHandle <;>
      simp [Instance.get_global, h, Except.toOption, Option.all]

/-- C4: for each of the four kinds, the names listing is `none` exactly when
the corresponding count is 0, and otherwise it is `some` list of exactly
count-many strings. -/
theorem c4_names_iff_len (i : Instance) (b : FFIBackend) :
    ((i.func_names b = none ↔ i.func_len b = 0)
      ∧ (i.func_names b).map List.length
          = if i.func_len b = 0 then none else some (i.func_len b))
    ∧ ((i.table_names b = none ↔ i.table_len b = 0)
      ∧ (i.table_names b).map List.length
          = if i.table_len b = 0 then none else some (i.table_len b))
    ∧ ((i.mem_names b = none ↔ i.mem_len b = 0)
      ∧ (i.mem_names b).map List.length
          = if i.mem_len b = 0 then none else some (i.mem_len b))
    ∧ ((i.global_names b = none ↔ i.global_len b = 0)
      ∧ (i.global_names b).map List.length
          = if i.global_len b = 0 then none else some (i.global_len b)) := by
  refine ⟨?_, ?_, ?_, ?_⟩
  · by_cases h : i.func_len b = 0 <;>
      simp [Instance.func_names, h, Nat.pos_iff_ne_zero]
  · by_cases h : i.table_len b = 0 <;>
      simp [Instance.table_names, h, Nat.pos_iff_ne_zero]
  · by_cases h : i.mem_len b = 0 <;>
      simp [Instance.mem_names, h, Nat.pos_iff_ne_zero]
  · by_cases h : i.global_len b = 0 <;>
      simp [Instance.global_names, h, Nat.pos_iff_ne_zero]

/-- C5: each host-module create returns its typed error
(`CreateImportModule` for `ImportModule`, `ImportObjCreate` for the WASI and
process modules) exactly when the backing allocation returns the null
sentinel, and every successful create returns a wrapper holding that same
non-null handle with the registered flag false. -/
theorem c5_create_null_iff_error (b : FFIBackend) (n : String)
    (cmds args envs preopens : Option (List String)) (allowed : Bool) :
    ((ImportModule.create b n
        = Except.error (WasmEdgeError.Instance InstanceError.CreateImportModule)
        ↔ b.WasmEdge_ModuleInstanceCreate n = nullHandle)
      ∧ ((ImportModule.create b n).toOption.all fun m =>
          (m.inner.ptr == b.WasmEdge_ModuleInstanceCreate n)
            && (m.inner.ptr != nullHandle) && !m.registered) = true)
    ∧ ((WasiModule.create b args envs preopens
        = Except.error WasmEdgeError.ImportObjCreate
        ↔ b.WasmEdge_ModuleInstanceCreateWASI (wasiParams args envs preopens)
            = nullHandle)
      ∧ ((WasiModule.create b args envs preopens).toOption.all fun m =>
          (m.inner.ptr
              == b.WasmEdge_ModuleInstanceCreateWASI (wasiParams args envs preopens))
            && (m.inner.ptr != nullHandle) && !m.registered) = true)
    ∧ ((WasmEdgeProcessModule.create b cmds allowed
        = Except.error WasmEdgeError.ImportObjCreate
        ↔ b.WasmEdge_ModuleInstanceCreateWasmEdgeProcess (processParams cmds allowed)
            = nullHandle)
      ∧ ((WasmEdgeProcessModule.create b cmds allowed).toOption.all fun m =>
          (m.inner.ptr
              == b.WasmEdge_ModuleInstanceCreateWasmEdgeProcess
                  (processParams cmds allowed))
            && (m.inner.ptr != nullHandle) && !m.registered) = true) := by
  refine ⟨?_, ?_, ?_⟩
  · by_cases h : b.WasmEdge_ModuleInstanceCreate n = nullHandle <;>
      simp [ImportModule.create, h, Except.toOption, Option.all]
  · by_cases h : b.WasmEdge_ModuleInstanceCreateWASI (wasiParams args envs preopens)
        = nullHandle <;>
      simp [WasiModule.create, h, Except.toOption, Option.all]
  · by_cases h : b.WasmEdge_ModuleInstanceCreateWasmEdgeProcess
        (processParams cmds allowed) = nullHandle <;>
      simp [WasmEdgeProcessModule.create, h, Except.toOption, Option.all]

/-- C6: `ImportObject::name` returns the active variant's name; the WASI and
process variants have the fixed identity names, and a successfully created
`ImportModule` wrapped as `ImportObject::Import` reports the string passed to
`ImportModule::create`. -/
theorem c6_name_dispatch (b : FFIBackend) (n : String) (m : ImportModule)
    (w : WasiModule) (p : WasmEdgeProcessModule) :
    (ImportObject.Import m).name = m.name
    ∧ (ImportObject.Wasi w).name = "wasi_snapshot_preview1"
    ∧ (ImportObject.WasmEdgeProcess p).name = "wasmedge_process"
    ∧ ((ImportModule.create b n).toOption.all
        fun m2 => (ImportObject.Import m2).name == n) = true := by
  refine ⟨rfl, rfl, rfl, ?_⟩
  by_cases h : b.WasmEdge_ModuleInstanceCreate n = nullHandle <;>
    simp [ImportModule.create, ImportObject.name, h, Except.toOption, Option.all]

/-- C7: `Instance::name` returns `none` exactly when the module name reported
by the backing service is empty, and otherwise `some` of exactly that name. -/
theorem c7_anonymous_name (i : Instance) (b : FFIBackend) :
    (i.name b = none
      ↔ (b.WasmEdge_ModuleInstanceGetModuleName i.inner.ptr).isEmpty = true)
    ∧ ((i.name b).all
        fun s => s == b.WasmEdge_ModuleInstanceGetModuleName i.inner.ptr) = true := by
  by_cases h : (b.WasmEdge_ModuleInstanceGetModuleName i.inner.ptr).isEmpty = true <;>
    simp [Instance.name, h, Option.all]

/-- C8: for a backend whose WASI state starts at the spec's initialization
sentinel 0, a `WasiModule` freshly created with `create(None, None, None)`
reports `exit_code() = 0`. -/
theorem c8_fresh_exit_code_zero (b : FFIBackend) (h : wasiInitSentinelZero b) :
    ((WasiModule.create b none none none).toOption.all
      fun w => w.exit_code b == 0) = true := by
  by_cases hc : b.WasmEdge_ModuleInstanceCreateWASI (wasiParams none none none)
      = nullHandle <;>
    simp [WasiModule.create, WasiModule.exit_code, hc, Except.toOption,
      Option.all, h none none none]

/-- Witness for C8 on the concrete test backend. -/
theorem c8_witness :
    wasiInitSentinelZero testBackend
    ∧ ((WasiModule.create testBackend none none none).toOption.all
        fun w => w.exit_code testBackend == 0) = true :=
  ⟨fun _ _ _ => rfl, c8_fresh_exit_code_zero testBackend (fun _ _ _ => rfl)⟩

/-- C9: `init_wasmedge_process` leaves the wrapper it is called on completely
unchanged, and the call it emits to the backing service is a `ProcessParams`
block independent of the wrapper (it carries no module handle), unlike
`init_wasi`, whose emitted call carries the module handle of the wrapper it
was invoked on. -/
theorem c9_process_init_no_handle (m m2 : WasmEdgeProcessModule) (w : WasiModule)
    (cmds args envs preopens : Option (List String)) (allowed : Bool) :
    (m.init_wasmedge_process cmds allowed).1 = m
    ∧ (m.init_wasmedge_process cmds allowed).1.inner.ptr = m.inner.ptr
    ∧ (m.init_wasmedge_process cmds allowed).1.registered = m.registered
    ∧ (m.init_wasmedge_process cmds allowed).2
        = (m2.init_wasmedge_process cmds allowed).2
    ∧ (w.init_wasi args envs preopens).1 = w
    ∧ (w.init_wasi args envs preopens).2.module_ptr = w.inner.ptr :=
  ⟨rfl, rfl, rfl, rfl, rfl, rfl⟩

/-- C10: in `WasiModule::create` and `WasiModule::init_wasi`, passing `none`
in any of the three positions marshals to the same backing call as passing
`some []` there (an empty array of length 0), so the results coincide
position by position. -/
theorem c10_none_is_empty_list (b : FFIBackend) (x y : Option (List String))
    (w : WasiModule) :
    wasiParams none x y = wasiParams (some []) x y
    ∧ wasiParams x none y = wasiParams x (some []) y
    ∧ wasiParams x y none = wasiParams x y (some [])
    ∧ WasiModule.create b none x y = WasiModule.create b (some []) x y
    ∧ WasiModule.create b x none y = WasiModule.create b x (some []) y
    ∧ WasiModule.create b x y none = WasiModule.create b x y (some [])
    ∧ w.init_wasi none x y = w.init_wasi (some []) x y
    ∧ w.init_wasi x none y = w.init_wasi x (some []) y
    ∧ w.init_wasi x y none = w.init_wasi x y (some [])
    ∧ (wasiParams none x y).args = []
    ∧ (wasiParams none x y).args_len = 0 :=
  ⟨rfl, rfl, rfl, rfl, rfl, rfl, rfl, rfl, rfl, rfl, rfl⟩

end SSVM
